import Mathlib

set_option maxRecDepth 100000

/-!
Verification development for the movie-performance-predictor scraping core:
a shallow embedding of the fuzzy title matcher, identifier resolution,
review extraction gates, dedup merge and rating reconciliation from
`src/scrapers/rotten_tomatoes_selenium.py`, `src/scrapers/imdb_scraper.py`
and `src/database/models.py`, together with theorems settling the
specification claims about them.

Machine reals (Python floats) are modelled as exact rationals, Python `int`
as `Int`, timestamps as integer seconds, and the network / browser / DOM
environment as explicit inputs (already-extracted result rows, oracle search
outcomes).  String operations are carried out on `List Char` to mirror
Python's per-character semantics (ASCII scope, which covers every concrete
input considered here).
-/

/-! ## Executable rational arithmetic

The kernel cannot evaluate `Rat.add`, `Rat.sub`, `Rat.mul` and `Rat.inv`
(they are marked irreducible), so the embedded code computes with the
following `Rat.divInt`-based equivalents; the bridge lemmas identify them
with the standard field operations for use in the general theorems. -/

/-- Executable addition on `ℚ`. -/
def qAdd (a b : ℚ) : ℚ := Rat.divInt (a.num * b.den + b.num * a.den) (a.den * b.den)

/-- Executable subtraction on `ℚ`. -/
def qSub (a b : ℚ) : ℚ := Rat.divInt (a.num * b.den - b.num * a.den) (a.den * b.den)

/-- Executable multiplication on `ℚ`. -/
def qMul (a b : ℚ) : ℚ := Rat.divInt (a.num * b.num) (a.den * b.den)

/-- Executable division on `ℚ` (division by zero yields zero, as in Mathlib). -/
def qDiv (a b : ℚ) : ℚ := Rat.divInt (a.num * b.den) (a.den * b.num)

/-- Executable `≤` test on `ℚ`. -/
def qLe (a b : ℚ) : Bool := decide (a.num * b.den ≤ b.num * a.den)

/-- Executable `<` test on `ℚ`. -/
def qLt (a b : ℚ) : Bool := decide (a.num * b.den < b.num * a.den)

/-- Executable binary maximum on `ℚ`. -/
def qMax (a b : ℚ) : ℚ := if qLt a b then b else a

/-! ## Python-semantics helpers -/

/-- Python truthiness of an optional float column (`None` and `0.0` are falsy). -/
def pyTruthyQ : Option ℚ → Bool
  | none => false
  | some x => x != 0

/-- Python truthiness of an optional int (`None` and `0` are falsy). -/
def pyTruthyZ : Option Int → Bool
  | none => false
  | some n => n != 0

/-- Python truthiness of an optional string (`None` and `""` are falsy). -/
def pyTruthyStr : Option String → Bool
  | none => false
  | some s => s != ""

/-- Python `\s` on the ASCII range. -/
def isPyWs (c : Char) : Bool :=
  c = ' ' || c = '\t' || c = '\n' || c = '\r' || c = '\x0b' || c = '\x0c'

/-- Round a rational to the nearest integer, ties to the even integer
(the semantics of Python's built-in `round`). -/
def roundHalfEven (q : ℚ) : ℤ :=
  if qLt (qSub q ((Rat.floor q : ℤ) : ℚ)) (Rat.divInt 1 2) then Rat.floor q
  else if qLt (Rat.divInt 1 2) (qSub q ((Rat.floor q : ℤ) : ℚ)) then Rat.floor q + 1
  else if Rat.floor q % 2 = 0 then Rat.floor q else Rat.floor q + 1

/-- Python `round(x, 2)`. -/
def pyRound2 (q : ℚ) : ℚ := qDiv ((roundHalfEven (qMul q 100) : ℤ) : ℚ) 100

/-- Model of CPython's salted string hashing (`hash(text)` on `str`): since
Python 3.3 string hashes mix a per-process random salt (`PYTHONHASHSEED`),
so they are constant within one interpreter process but differ between runs.
The exact permutation (siphash13) is irrelevant to the claims here; what the
model preserves is that the value is a deterministic function of the salt
and the text and genuinely depends on the salt. -/
def pyStrHash (salt : Nat) (s : String) : Int :=
  ((s.data.foldl (fun h c => (h * 1000003 + c.toNat) % (2 ^ 61)) (salt % (2 ^ 61)) : Nat) : Int)

/-- Python `s.split()` worker: split on whitespace runs, dropping empty pieces. -/
def wsSplitAux : List Char → List Char → List (List Char)
  | [], acc => if acc.isEmpty then [] else [acc.reverse]
  | c :: cs, acc =>
    if isPyWs c then
      if acc.isEmpty then wsSplitAux cs [] else acc.reverse :: wsSplitAux cs []
    else wsSplitAux cs (c :: acc)

/-- Python `s.split()` on the underlying character list. -/
def pySplitL (s : List Char) : List (List Char) := wsSplitAux s []

/-- Join character-list tokens with a single separator character. -/
def joinWith (sep : Char) : List (List Char) → List Char
  | [] => []
  | [x] => x
  | x :: y :: rest => x ++ sep :: joinWith sep (y :: rest)

/-- Python `' '.join(s.split())`: collapse internal whitespace. -/
def collapseWs (s : String) : String := String.mk (joinWith ' ' (pySplitL s.data))

/-- Python `s.lower()` (ASCII scope). -/
def pyLower (s : String) : String := String.mk (s.data.map Char.toLower)

/-- Python `s.strip()`. -/
def pyStrip (s : String) : String :=
  String.mk (((s.data.dropWhile isPyWs).reverse.dropWhile isPyWs).reverse)

/-- Python `s.startswith(t)`. -/
def pyStartsWith (s t : String) : Bool := t.data.isPrefixOf s.data

/-- Drop the first `n` characters of a string (Python `s[n:]`). -/
def strDropN (s : String) (n : Nat) : String := String.mk (s.data.drop n)

/-- Python `needle in hay` on strings (substring containment). -/
def pyContains (hay needle : String) : Bool :=
  (List.range (hay.data.length + 1)).any (fun i => needle.data.isPrefixOf (hay.data.drop i))

/-- Python `s.replace(pat, rep)` worker (left-to-right, non-overlapping);
`fuel` bounds the scan and is instantiated with the string length, which
suffices because every step consumes at least one character (all patterns
used in the sources are non-empty). -/
def listReplaceF (pat rep : List Char) : Nat → List Char → List Char
  | 0, s => s
  | _ + 1, [] => []
  | fuel + 1, c :: cs =>
    if pat.isPrefixOf (c :: cs) then rep ++ listReplaceF pat rep fuel ((c :: cs).drop pat.length)
    else c :: listReplaceF pat rep fuel cs

/-- Python `s.replace(pat, rep)` for a non-empty pattern. -/
def strReplace (s pat rep : String) : String :=
  String.mk (listReplaceF pat.data rep.data s.data.length s.data)

/-! ## Fuzzy title matcher (`_calculate_match_score`) -/

/-- Title normalization inside `_calculate_match_score`: lowercase, strip the
leading articles `"the "`, `"a "`, `"an "` in that order (each at most once,
in sequence), drop every character outside `[a-z0-9\s]`, collapse whitespace. -/
def rtNormalize (title : String) : String :=
  let t := pyLower title
  let t := if pyStartsWith t "the " then strDropN t 4 else t
  let t := if pyStartsWith t "a " then strDropN t 2 else t
  let t := if pyStartsWith t "an " then strDropN t 3 else t
  collapseWs (String.mk (t.data.filter (fun c => c.isLower || c.isDigit || isPyWs c)))

/-- Length of the common prefix of two character lists. -/
def commonPrefixLen : List Char → List Char → Nat
  | a :: as, b :: bs => if a = b then commonPrefixLen as bs + 1 else 0
  | _, _ => 0

/-- Inner scan of `findLongestMatch`: walk the start positions `j` in `b`,
keeping the best `(i, j, size)` seen so far (strict-greater updates only). -/
def flmInner (a b : List Char) (i : Nat) : List Nat → Nat × Nat × Nat → Nat × Nat × Nat
  | [], best => best
  | j :: js, (bi, bj, bk) =>
    match Nat.decLt bk (commonPrefixLen (a.drop i) (b.drop j)) with
    | isTrue _ => flmInner a b i js (i, j, commonPrefixLen (a.drop i) (b.drop j))
    | isFalse _ => flmInner a b i js (bi, bj, bk)

/-- Outer scan of `findLongestMatch`: walk the start positions `i` in `a`. -/
def flmOuter (a b : List Char) : List Nat → Nat × Nat × Nat → Nat × Nat × Nat
  | [], best => best
  | i :: is, best => flmOuter a b is (flmInner a b i (List.range b.length) best)

/-- difflib `SequenceMatcher.find_longest_match` over whole sequences with no
junk (the autojunk popularity heuristic only activates for second strings of
length at least 200, so it is inert on all inputs considered here).  Returns
`(i, j, size)`: the longest matching block, ties broken by the smallest start
in `a`, then the smallest start in `b`, exactly as difflib's scan records it. -/
def findLongestMatch (a b : List Char) : Nat × Nat × Nat :=
  flmOuter a b (List.range a.length) (0, 0, 0)

/-- Total size of difflib's matching blocks: recursive split around the longest
matching block.  `fuel` is instantiated with `a.length + 1`, which suffices
because each recursive call strictly shrinks the first sequence. -/
def matchedTotalFuel : Nat → List Char → List Char → Nat
  | 0, _, _ => 0
  | fuel + 1, a, b =>
    let m := findLongestMatch a b
    if m.2.2 = 0 then 0
    else
      m.2.2 + matchedTotalFuel fuel (a.take m.1) (b.take m.2.1)
        + matchedTotalFuel fuel (a.drop (m.1 + m.2.2)) (b.drop (m.2.1 + m.2.2))

/-- Total number of matched characters between two sequences (difflib). -/
def matchedTotal (a b : List Char) : Nat := matchedTotalFuel (a.length + 1) a b

/-- difflib `SequenceMatcher(None, a, b).ratio()`: `2*M/T` (and `1.0` when both
strings are empty). -/
def seqRatio (a b : String) : ℚ :=
  if a.data.length + b.data.length = 0 then 1
  else Rat.divInt (2 * (matchedTotal a.data b.data : ℤ)) ((a.data.length + b.data.length : ℕ) : ℤ)

/-- Token-set overlap signal of `_calculate_match_score`:
`|A ∩ B| / max(|A|, |B|)` over whitespace-split token sets, `0.0` when either
set is empty. -/
def wordOverlap (a b : String) : ℚ :=
  let A := (pySplitL a.data).dedup
  let B := (pySplitL b.data).dedup
  if A.isEmpty || B.isEmpty then 0
  else Rat.divInt ((A.filter (fun w => B.contains w)).length : ℤ) ((max A.length B.length : ℕ) : ℤ)

/-- Containment signal of `_calculate_match_score`:
`0.9 * (len(shorter) / len(longer))`. -/
def containScore (sn rn : String) : ℚ :=
  Rat.divInt (9 * ((min sn.length rn.length : ℕ) : ℤ)) (10 * ((max sn.length rn.length : ℕ) : ℤ))

/-- `_calculate_match_score` from `rotten_tomatoes_selenium.py`.  Note the
control flow: each strategy returns as soon as it applies (exact equality,
then containment with the length-ratio penalty), and only when neither
applies is the maximum of the remaining two signals taken. -/
def calculate_match_score (search_title result_title : String) : ℚ :=
  let sn := rtNormalize search_title
  let rn := rtNormalize result_title
  if sn = rn then 1
  else if pyContains rn sn || pyContains sn rn then containScore sn rn
  else qMax (seqRatio sn rn) (wordOverlap sn rn)

/-- Modelled from the spec: "Compute four signals and return the maximum:
(1) exact-equality, 1.0; (2) containment of the shorter normalized string in
the longer, 0.9 x (len(shorter)/len(longer)); (3) character-level
sequence-similarity ratio; (4) token-set overlap".  Stated for comparison
with the source's `calculate_match_score`. -/
def spec_four_signal_max (a b : String) : ℚ :=
  let sn := rtNormalize a
  let rn := rtNormalize b
  let s1 : ℚ := if sn = rn then 1 else 0
  let s2 : ℚ := if pyContains rn sn || pyContains sn rn then containScore sn rn else 0
  qMax (qMax s1 s2) (qMax (seqRatio sn rn) (wordOverlap sn rn))

/-! ## Rotten Tomatoes identifier resolution
(`_generate_slug`, `_search_via_selenium`, `search_movie`) -/

/-- Expansion of `&` into ` and ` inside `_generate_slug`. -/
def expandAmp : List Char → List Char
  | [] => []
  | c :: cs =>
    if c = '&' then ' ' :: 'a' :: 'n' :: 'd' :: ' ' :: expandAmp cs
    else c :: expandAmp cs

/-- Characters kept by `_generate_slug` (`[a-z0-9\s]` after lowercasing). -/
def isSlugKeep (c : Char) : Bool := c.isLower || c.isDigit || isPyWs c

/-- `_generate_slug`: lowercase, expand `&` to ` and `, drop everything outside
`[a-z0-9\s]`, join the whitespace-split words with underscores, and append the
year when truthy (the fallback caller always passes `year=None`). -/
def generate_slug (title : String) (year : Option Int) : String :=
  let cs := ((pyLower title).data)
  let slug := String.mk (joinWith '_' (pySplitL ((expandAmp cs).filter isSlugKeep)))
  match year with
  | some y => if y ≠ 0 then slug ++ "_" ++ toString y else slug
  | none => slug

/-- One parsed Rotten Tomatoes search result row: title text, link URL, and the
`startyear` attribute when present and parseable as an integer (`none` covers
both an absent attribute and a `ValueError` on `int(...)`, which the code
treats identically). -/
structure RTSearchResult where
  title : String
  url : String
  startyear : Option Int
deriving DecidableEq

/-- Base URL constant of the RT scraper. -/
def rtBaseUrl : String := "https://www.rottentomatoes.com"

/-- Slug extraction on an accepted match: strip the `BASE_URL + "/m/"` prefix
via `str.replace` and trailing slashes via `rstrip('/')`. -/
def rtSlugOfUrl (url : String) : String :=
  String.mk (((strReplace url (rtBaseUrl ++ "/m/") "").data.reverse.dropWhile
    (fun c => c = '/')).reverse)

/-- Year step of `_search_via_selenium`: with a truthy query year and a result
year, a difference of at most 2 earns a `+0.1` bonus and a larger difference
disqualifies the candidate (`year_compatible = False`); otherwise the score is
unchanged.  Returns `none` for a disqualified candidate. -/
def rtYearAdjust (year : Option Int) (ry : Option Int) (score : ℚ) : Option ℚ :=
  match year, ry with
  | some qy, some y =>
    if qy = 0 then some score
    else if (y - qy).natAbs ≤ 2 then some (qAdd score (Rat.divInt 1 10))
    else none
  | _, _ => some score

/-- Loop body of `_search_via_selenium`'s candidate scan: skip TV URLs, score
the candidate with `calculate_match_score` plus the year adjustment, and track
the strictly-best score. -/
def rtSelectStep (title : String) (year : Option Int)
    (best : Option RTSearchResult × ℚ) (r : RTSearchResult) : Option RTSearchResult × ℚ :=
  if pyContains r.url "/tv/" then best
  else
    match rtYearAdjust year r.startyear (calculate_match_score title r.title) with
    | none => best
    | some s => if qLt best.2 s then (some r, s) else best

/-- Candidate-selection loop of `_search_via_selenium` (the Selenium fetch and
DOM scan are supplied as the already-extracted result rows): fold the scan
over the results and accept the final best only at threshold 0.7. -/
def rt_select_best (title : String) (year : Option Int)
    (results : List RTSearchResult) : Option String :=
  let fin := results.foldl (rtSelectStep title year) (none, 0)
  match fin.1 with
  | some r => if qLe (Rat.divInt 7 10) fin.2 then some (rtSlugOfUrl r.url) else none
  | none => none

/-- `search_movie` of the RT scraper, with the two network-backed search
attempts supplied as oracles (`_search_via_selenium` catches every exception
and returns `None` on any failure, so an oracle value of `none` covers "no
results", low scores, timeouts and crashes alike): strategy 1 searches without
the year, strategy 2 with the year (only when the year is truthy), and
otherwise the deterministic slug fallback is returned unconditionally. -/
def rt_search_movie (title : String) (year : Option Int)
    (search_no_year search_with_year : Option String) : Option String :=
  if pyTruthyStr search_no_year then search_no_year
  else if pyTruthyZ year && pyTruthyStr search_with_year then search_with_year
  else some (generate_slug title none)

/-! ## IMDb identifier resolution
(`normalize_title`, `search_movie_fuzzy`) -/

/-- Case-insensitive prefix test (regex `IGNORECASE` literal match). -/
def ciIsPrefixOf : List Char → List Char → Bool
  | [], _ => true
  | _ :: _, [] => false
  | p :: ps, c :: cs => (p.toLower == c.toLower) && ciIsPrefixOf ps cs

/-- Match the regex group `(\s*[:–-]|\s*$)` at the head of `s`: greedy
whitespace followed by a colon, en dash or hyphen, or else whitespace running
to the end of the string.  Returns the captured text and the remainder. -/
def romanTail (s : List Char) : Option (List Char × List Char) :=
  let ws := s.takeWhile isPyWs
  let rest := s.dropWhile isPyWs
  match rest with
  | [] => some (ws, [])
  | c :: cs => if c = ':' || c = '–' || c = '-' then some (ws ++ [c], cs) else none

/-- One `re.sub` pass replacing `escape(roman) + (\s*[:–-]|\s*$)` (IGNORECASE)
with `num` plus the captured group, scanning left to right, continuing after
each match (all roman patterns start with a space, so every step consumes at
least one character and the string-length fuel suffices). -/
def subRoman (roman num : List Char) : Nat → List Char → List Char
  | 0, s => s
  | _ + 1, [] => []
  | fuel + 1, c :: cs =>
    if ciIsPrefixOf roman (c :: cs) then
      match romanTail ((c :: cs).drop roman.length) with
      | some (grp, rest) => num ++ grp ++ subRoman roman num fuel rest
      | none => c :: subRoman roman num fuel cs
    else c :: subRoman roman num fuel cs

/-- The roman-numeral substitutions of `IMDbScraper.normalize_title`, in the
order produced by `sorted(roman_map.items(), key=lambda x: -len(x[0]))`
(longest first, dict insertion order on ties, Python sort being stable). -/
def romanPatterns : List (List Char × List Char) :=
  [ (" VIII".data, " 8".data)
  , (" III".data, " 3".data), (" VII".data, " 7".data), (" XII".data, " 12".data)
  , (" II".data, " 2".data), (" IV".data, " 4".data), (" VI".data, " 6".data)
  , (" IX".data, " 9".data), (" XI".data, " 11".data)
  , (" I".data, " 1".data), (" V".data, " 5".data), (" X".data, " 10".data) ]

/-- `IMDbScraper.normalize_title`: convert roman numerals trailing a word or
preceding a colon/dash into arabic digits, longest numeral first. -/
def normalize_title (title : String) : String :=
  String.mk (romanPatterns.foldl (fun s p => subRoman p.1 p.2 (s.length + 1) s) title.data)

/-- fuzzywuzzy `full_process`: replace every non-word character (regex `\W`)
by a space, lowercase, strip. -/
def fwFullProcess (s : String) : String :=
  pyStrip (String.mk (s.data.map
    (fun c => if c.isAlphanum || c = '_' then c.toLower else ' ')))

/-- Lexicographic comparison of character lists by code point (Python `str`
ordering for the ASCII scope used here). -/
def listCharLt : List Char → List Char → Bool
  | [], [] => false
  | [], _ :: _ => true
  | _ :: _, [] => false
  | a :: as, b :: bs => if a < b then true else if b < a then false else listCharLt as bs

/-- Insertion step of `sorted(tokens)`. -/
def insertToken (x : List Char) : List (List Char) → List (List Char)
  | [] => [x]
  | y :: ys => if listCharLt y x then y :: insertToken x ys else x :: y :: ys

/-- Python `sorted` on tokens (insertion sort; ties are identical strings). -/
def sortTokens (l : List (List Char)) : List (List Char) := l.foldr insertToken []

/-- fuzzywuzzy `_process_and_sort`: full-process, split, sort, rejoin. -/
def tokenSortProcess (s : String) : String :=
  String.mk (joinWith ' ' (sortTokens (pySplitL (fwFullProcess s).data)))

/-- fuzzywuzzy `fuzz.token_sort_ratio` with its pure-python backend:
`int(round(100 * SequenceMatcher(None, p1, p2).ratio()))` over the processed,
token-sorted strings. -/
def token_sort_ratio (a b : String) : Int :=
  roundHalfEven (qMul 100 (seqRatio (tokenSortProcess a) (tokenSortProcess b)))

/-- Match `\s*\(\d{4}\)` at the head of `s`. -/
def yearParenAt (s : List Char) : Bool :=
  match s.dropWhile isPyWs with
  | '(' :: d1 :: d2 :: d3 :: d4 :: ')' :: _ =>
    d1.isDigit && d2.isDigit && d3.isDigit && d4.isDigit
  | _ => false

/-- Scan for the leftmost `\s*\(\d{4}\)` and cut the string there. -/
def stripYearGo : List Char → List Char
  | [] => []
  | c :: cs => if yearParenAt (c :: cs) then [] else c :: stripYearGo cs

/-- `re.sub(r'\s*\(\d{4}\).*$', '', t)`: drop everything from the first
whitespace-then-parenthesised-4-digit-year onward. -/
def stripYearSuffix (t : String) : String := String.mk (stripYearGo t.data)

/-- One parsed IMDb search result row (title text, IMDb id, year when the
parser extracted one). -/
structure IMDbSearchResult where
  title : String
  imdb_id : String
  year : Option Int
deriving DecidableEq

/-- Year filter of `search_movie_fuzzy`: with a truthy query year and a result
year, require a difference of at most 1; otherwise every candidate passes. -/
def imdbYearOk (year : Option Int) (ry : Option Int) : Bool :=
  match year, ry with
  | some qy, some y => if qy = 0 then true else decide ((qy - y).natAbs ≤ 1)
  | _, _ => true

/-- The fuzzy score `search_movie_fuzzy` computes for one candidate:
`fuzz.token_sort_ratio` of the lowercased normalized search title against the
lowercased normalized year-stripped result title. -/
def imdb_candidate_score (title : String) (r : IMDbSearchResult) : Int :=
  token_sort_ratio (pyLower (normalize_title title))
    (pyLower (normalize_title (stripYearSuffix r.title)))

/-- Loop body of `search_movie_fuzzy`'s candidate scan: score the candidate,
filter by the year rule, and keep the strictly-best score. -/
def imdbSelectStep (title : String) (year : Option Int)
    (best : Option IMDbSearchResult × Int) (r : IMDbSearchResult) :
    Option IMDbSearchResult × Int :=
  if imdbYearOk year r.year && decide (best.2 < imdb_candidate_score title r) then
    (some r, imdb_candidate_score title r)
  else best

/-- Candidate-selection loop of `search_movie_fuzzy` (network fetch and HTML
parsing supplied as the already-parsed result rows): fold the scan over the
first ten candidates and accept the final best at `threshold` (the parameter
defaults to 60). -/
def search_movie_fuzzy_select (title : String) (year : Option Int)
    (threshold : Int) (results : List IMDbSearchResult) : Option String :=
  let fin := (results.take 10).foldl (imdbSelectStep title year) (none, 0)
  match fin.1 with
  | some r => if threshold ≤ fin.2 then some r.imdb_id else none
  | none => none

/-! ## Structured extraction gates
(`_parse_review_card_selenium`, `IMDbScraper._parse_review`) -/

/-- Artifact cleanup applied to the RT review body: strip the
"Content collapsed." / "See Less" / "See More" UI strings, then `strip()`. -/
def rtCleanReviewText (t : String) : String :=
  pyStrip (strReplace (strReplace (strReplace t "Content collapsed." "") "See Less" "") "See More" "")

/-- The review dictionary built by `_parse_review_card_selenium` (the fields
the downstream dedup merge and the claims read). -/
structure RTReview where
  source_id : String
  text : String
  review_length : Nat
  word_count : Nat
  review_type : Option String
deriving DecidableEq

/-- Review-type classification of `_parse_review_card_selenium`
(`'critic' in endpoint_type`, `'top' in endpoint_type`, `'verified' in ...`). -/
def rtReviewType (endpoint_type : String) : String :=
  if pyContains endpoint_type "critic" then
    if pyContains endpoint_type "top" then "top_critic" else "critic"
  else
    if pyContains endpoint_type "verified" then "verified_audience" else "audience"

/-- The `source_id` string `f"rt_{endpoint_type}_{hash(text)}"` built by
`_parse_review_card_selenium`; `salt` is the process hash salt feeding the
built-in `hash`. -/
def rt_source_id (endpoint_type : String) (salt : Nat) (text : String) : String :=
  "rt_" ++ endpoint_type ++ "_" ++ toString (pyStrHash salt text)

/-- Body validation and record construction of `_parse_review_card_selenium`,
with the DOM slot text supplied as `raw_text` (the Selenium extraction
fallbacks all feed the same cleanup): clean the UI artifacts, then discard
the card when the text is falsy or shorter than 10 characters
(`if not text or len(text) < 10: return None`). -/
def rt_parse_review_card (raw_text : String) (endpoint_type : String) (salt : Nat) :
    Option RTReview :=
  let text := rtCleanReviewText raw_text
  if text = "" || text.length < 10 then none
  else some
    { source_id := rt_source_id endpoint_type salt text
    , text := text
    , review_length := text.length
    , word_count := (pySplitL text.data).length
    , review_type := some (rtReviewType endpoint_type) }

/-- Strip a leading `N/M` rating from the review text
(`re.sub(r'^\d+/\d+\s*', '', text)`). -/
def stripLeadingRating (t : String) : String :=
  match t.data.takeWhile Char.isDigit, t.data.dropWhile Char.isDigit with
  | _ :: _, '/' :: r2 =>
    (match r2.takeWhile Char.isDigit with
     | _ :: _ => String.mk ((r2.dropWhile Char.isDigit).dropWhile isPyWs)
     | [] => t)
  | _, _ => t

/-- Body-length validation of `IMDbScraper._parse_review`, with the extracted,
whitespace-collapsed, Spoiler-stripped body text supplied: discard the
container when the text is falsy or shorter than 20 characters
(`if not text or len(text) < 20: return None`), then strip a leading `N/M`
rating prefix. -/
def imdb_parse_review_text (text : String) : Option String :=
  if text = "" || text.length < 20 then none
  else some (stripLeadingRating text)

/-! ## Deduplication and priority merge (`scrape_reviews`, `PRIORITIES`) -/

/-- The `PRIORITIES` table of the RT scraper, accessed with
`PRIORITIES.get(review_type, 0)`. -/
def priorities_get (review_type : String) : Nat :=
  if review_type = "top_critic" then 4
  else if review_type = "critic" then 3
  else if review_type = "verified_audience" then 2
  else if review_type = "audience" then 1
  else 0

/-- Priority of one review record:
`PRIORITIES.get(review.get('review_type', 'audience'), 0)`. -/
def reviewPriority (r : RTReview) : Nat :=
  priorities_get (r.review_type.getD "audience")

/-- One iteration of the dedup loop in `scrape_reviews`: key by `hash(text)`,
insert unseen fingerprints at the end, replace a stored entry only on
strictly greater priority (a Python dict keeps the original insertion
position when a key is overwritten, modelled by the in-place map). -/
def dedupStep (salt : Nat) (seen : List (Int × RTReview × Nat)) (r : RTReview) :
    List (Int × RTReview × Nat) :=
  let h := pyStrHash salt r.text
  let p := reviewPriority r
  match seen.find? (fun e => e.1 == h) with
  | some e =>
    if e.2.2 < p then seen.map (fun e2 => if e2.1 == h then (h, r, p) else e2) else seen
  | none => seen ++ [(h, r, p)]

/-- The dedup merge of `scrape_reviews` over the per-endpoint review batches:
fold every batch through `dedupStep` and return the retained reviews in the
dict's (insertion) order. -/
def scrape_reviews_dedup (salt : Nat) (batches : List (List RTReview)) : List RTReview :=
  ((batches.foldl (fun seen batch => batch.foldl (dedupStep salt) seen) []).map
    (fun e => e.2.1))

/-! ## Rating reconciliation (`Movie.get_best_rating`) -/

/-- The rating-bearing columns of the `Movie` model (ratings are floats on the
0-10 scale, `scraped_at` a timestamp in seconds). -/
structure MovieRatings where
  tmdb_rating : Option ℚ
  tmdb_vote_count : Option Int
  imdb_rating : Option ℚ
  imdb_vote_count : Option Int
  scraped_at : Option Int
deriving DecidableEq

/-- The weight `voteCount or 1` (`None` and `0` both fall back to `1`). -/
def voteWeight : Option Int → Int
  | none => 1
  | some n => if n = 0 then 1 else n

/-- Strategy 1 test of `get_best_rating`: a truthy scraped IMDb rating whose
scrape timestamp is under 7 days old relative to `now`
(`(datetime.utcnow() - self.scraped_at).days` floor-divides by 86400). -/
def freshApplies (m : MovieRatings) (now : Int) : Bool :=
  pyTruthyQ m.imdb_rating &&
    (match m.scraped_at with
     | some t => decide ((now - t).fdiv 86400 < 7)
     | none => false)

/-- The vote-count-weighted average of strategy 2 of `get_best_rating`. -/
def weightedRating (m : MovieRatings) : ℚ :=
  let tw : ℚ := ((voteWeight m.tmdb_vote_count : ℤ) : ℚ)
  let iw : ℚ := ((voteWeight m.imdb_vote_count : ℤ) : ℚ)
  qDiv (qAdd (qMul (m.tmdb_rating.getD 0) tw) (qMul (m.imdb_rating.getD 0) iw)) (qAdd tw iw)

/-- `Movie.get_best_rating`, with the hidden `datetime.utcnow()` read supplied
as `now`: (1) fresh live scrape wins; (2) both ratings truthy, vote-weighted
average rounded to 2 decimals; (3) `self.imdb_rating or self.tmdb_rating`. -/
def get_best_rating (m : MovieRatings) (now : Int) : Option ℚ :=
  if freshApplies m now then m.imdb_rating
  else if pyTruthyQ m.tmdb_rating && pyTruthyQ m.imdb_rating then
    some (pyRound2 (weightedRating m))
  else if pyTruthyQ m.imdb_rating then m.imdb_rating
  else m.tmdb_rating

/-! ## General lemmas -/

theorem qAdd_eq (a b : ℚ) : qAdd a b = a + b := by
  have ha : ((a.den : ℤ) : ℚ) ≠ 0 := by exact_mod_cast a.den_nz
  have hb : ((b.den : ℤ) : ℚ) ≠ 0 := by exact_mod_cast b.den_nz
  conv_rhs => rw [← Rat.num_div_den a, ← Rat.num_div_den b]
  rw [qAdd, Rat.divInt_eq_div]
  push_cast
  rw [div_add_div _ _ (by exact_mod_cast ha) (by exact_mod_cast hb)]
  ring_nf

theorem qSub_eq (a b : ℚ) : qSub a b = a - b := by
  have ha : ((a.den : ℤ) : ℚ) ≠ 0 := by exact_mod_cast a.den_nz
  have hb : ((b.den : ℤ) : ℚ) ≠ 0 := by exact_mod_cast b.den_nz
  conv_rhs => rw [← Rat.num_div_den a, ← Rat.num_div_den b]
  rw [qSub, Rat.divInt_eq_div]
  push_cast
  rw [div_sub_div _ _ (by exact_mod_cast ha) (by exact_mod_cast hb)]
  ring_nf

theorem qMul_eq (a b : ℚ) : qMul a b = a * b := by
  have ha : ((a.den : ℤ) : ℚ) ≠ 0 := by exact_mod_cast a.den_nz
  have hb : ((b.den : ℤ) : ℚ) ≠ 0 := by exact_mod_cast b.den_nz
  conv_rhs => rw [← Rat.num_div_den a, ← Rat.num_div_den b]
  rw [qMul, Rat.divInt_eq_div]
  push_cast
  rw [div_mul_div_comm]

theorem qDiv_eq (a b : ℚ) : qDiv a b = a / b := by
  rcases eq_or_ne b 0 with hb0 | hb0
  · subst hb0
    simp [qDiv, Rat.divInt_eq_div]
  · have ha : ((a.den : ℤ) : ℚ) ≠ 0 := by exact_mod_cast a.den_nz
    have hbd : ((b.den : ℤ) : ℚ) ≠ 0 := by exact_mod_cast b.den_nz
    have hbn : ((b.num : ℤ) : ℚ) ≠ 0 := by exact_mod_cast Rat.num_ne_zero.mpr hb0
    conv_rhs => rw [← Rat.num_div_den a, ← Rat.num_div_den b]
    rw [qDiv, Rat.divInt_eq_div]
    push_cast
    field_simp

theorem qLe_iff (a b : ℚ) : qLe a b = true ↔ a ≤ b := by
  rw [qLe, decide_eq_true_iff, Rat.le_def]

theorem qLt_iff (a b : ℚ) : qLt a b = true ↔ a < b := by
  rw [qLt, decide_eq_true_iff, Rat.lt_def]

theorem qLt_eq_false_iff (a b : ℚ) : qLt a b = false ↔ b ≤ a := by
  rw [← not_lt, ← qLt_iff]
  simp

theorem qMax_eq (a b : ℚ) : qMax a b = max a b := by
  rcases h : qLt a b with hf | ht
  · rw [qMax, h, if_neg Bool.false_ne_true, max_eq_left ((qLt_eq_false_iff a b).mp h)]
  · rw [qMax, h, if_pos rfl, max_eq_right (le_of_lt ((qLt_iff a b).mp h))]

/-- `find?` commutes with a map that preserves the search predicate. -/
theorem find_map_key {α : Type} (f : α → α) (q : α → Bool) (hq : ∀ e, q (f e) = q e) :
    ∀ l : List α, (l.map f).find? q = (l.find? q).map f
  | [] => rfl
  | e :: l => by
    cases he : q e with
    | false =>
      rw [List.map_cons, List.find?_cons_of_neg, List.find?_cons_of_neg,
        find_map_key f q hq l]
      · simp [he]
      · simp [hq, he]
    | true =>
      rw [List.map_cons, List.find?_cons_of_pos, List.find?_cons_of_pos, Option.map_some']
      · exact he
      · simp [hq, he]

/-! ## Claim C6 -/

/-- C6: the dedup fingerprint and the derived `source_id` are computed with the
built-in `hash(text)`, which is salted per interpreter process: two runs with
different salts assign different identities to the same review text, so the
identity is not stable across process runs (the claim's stability property
fails on the code; within one process, i.e. for one salt, the value is a fixed
function of the text). -/
theorem c6_hash_not_stable :
    pyStrHash 0 "great movie overall" ≠ pyStrHash 1 "great movie overall" ∧
    rt_source_id "top_critics" 0 "great movie overall"
      ≠ rt_source_id "top_critics" 1 "great movie overall" := by
  constructor <;> decide

/-! ## Claim C7 -/

/-- C7 counterexample: `get_best_rating` reads the wall clock.  With identical
stored fields (IMDb 8.0 with 500 votes scraped at time 0, TMDB 7.0 with 1000
votes), evaluating at time 0 (scrape 0 days old) returns 8.0 via the freshness
override, while evaluating at time 864000 s (10 days later) returns the
weighted average 7.33 — the claimed independence from the current time fails. -/
theorem c7_counterexample :
    get_best_rating ⟨some 7, some 1000, some 8, some 500, some 0⟩ 0 = some 8 ∧
    get_best_rating ⟨some 7, some 1000, some 8, some 500, some 0⟩ 864000
      = some (Rat.divInt 733 100) ∧
    (8 : ℚ) ≠ Rat.divInt 733 100 := by
  refine ⟨by decide, by decide, by decide⟩

/-- C7 (amended): rating reconciliation is a deterministic function of the
stored ratings, vote counts, scrape timestamp AND the current wall-clock
time; the clock enters only through the 7-day freshness test, so any two
evaluation instants on which that test agrees produce the same recommended
rating. -/
theorem c7_clock_dependence (m : MovieRatings) (t1 t2 : Int)
    (h : freshApplies m t1 = freshApplies m t2) :
    get_best_rating m t1 = get_best_rating m t2 := by
  rw [get_best_rating, get_best_rating, h]

/-- Witness for C7: with no scrape timestamp the freshness test agrees on any
two instants, so the result is the same at time 0 and 10 days later. -/
theorem c7_clock_dependence_witness :
    get_best_rating ⟨some 7, some 1000, some 8, some 500, none⟩ 0
      = get_best_rating ⟨some 7, some 1000, some 8, some 500, none⟩ 864000 :=
  c7_clock_dependence ⟨some 7, some 1000, some 8, some 500, none⟩ 0 864000 (by decide)

/-! ## Claim C3 -/

/-- C3 counterexample: a stored TMDB rating of 0.0 is present but Python-falsy,
so `get_best_rating` skips the weighted average (strategy 2) and returns the
IMDb rating 8.0 via strategy 3, not the claimed weighted value
`round((0.0*1000 + 8.0*500)/1500, 2) = 2.67`. -/
theorem c3_counterexample :
    get_best_rating ⟨some 0, some 1000, some 8, some 500, none⟩ 0 = some 8 ∧
    pyRound2 (weightedRating ⟨some 0, some 1000, some 8, some 500, none⟩)
      = Rat.divInt 267 100 ∧
    (8 : ℚ) ≠ Rat.divInt 267 100 := by
  refine ⟨by decide, by decide, by decide⟩

/-- C3 (amended): when no fresh live-scraped rating applies and both stored
ratings are present with nonzero values (Python truthiness), the recommended
rating is `round(sum(v_i * w_i) / sum(w_i), 2)` with `w_i = voteCount or 1`;
in particular TMDB 7.0 with 1000 votes and IMDb 8.0 with 500 votes yield
exactly 7.33. -/
theorem c3_weighted_average :
    (∀ (m : MovieRatings) (now : Int) (tv iv : ℚ),
      freshApplies m now = false →
      m.tmdb_rating = some tv → tv ≠ 0 → m.imdb_rating = some iv → iv ≠ 0 →
      get_best_rating m now
        = some (pyRound2 ((tv * ((voteWeight m.tmdb_vote_count : ℤ) : ℚ)
            + iv * ((voteWeight m.imdb_vote_count : ℤ) : ℚ))
            / (((voteWeight m.tmdb_vote_count : ℤ) : ℚ)
              + ((voteWeight m.imdb_vote_count : ℤ) : ℚ))))) ∧
    get_best_rating ⟨some 7, some 1000, some 8, some 500, none⟩ 0
      = some (Rat.divInt 733 100) := by
  constructor
  · intro m now tv iv hfresh ht htv hi hiv
    have hw : weightedRating m
        = (tv * ((voteWeight m.tmdb_vote_count : ℤ) : ℚ)
            + iv * ((voteWeight m.imdb_vote_count : ℤ) : ℚ))
            / (((voteWeight m.tmdb_vote_count : ℤ) : ℚ)
              + ((voteWeight m.imdb_vote_count : ℤ) : ℚ)) := by
      rw [weightedRating, ht, hi]
      simp only [Option.getD_some]
      rw [qDiv_eq, qAdd_eq, qMul_eq, qMul_eq, qAdd_eq]
    rw [get_best_rating, hfresh]
    simp only [Bool.false_eq_true, if_false]
    rw [if_pos, hw]
    rw [ht, hi]
    simp [pyTruthyQ, htv, hiv]
  · decide

/-- Witness for C3: the spec's own concrete instance, via the general theorem. -/
theorem c3_weighted_average_witness :
    get_best_rating ⟨some 7, some 1000, some 8, some 500, none⟩ 0
      = some (pyRound2 ((7 * ((voteWeight (some 1000) : ℤ) : ℚ)
          + 8 * ((voteWeight (some 500) : ℤ) : ℚ))
          / (((voteWeight (some 1000) : ℤ) : ℚ) + ((voteWeight (some 500) : ℤ) : ℚ)))) :=
  c3_weighted_average.1 ⟨some 7, some 1000, some 8, some 500, none⟩ 0 7 8
    (by decide) rfl (by decide) rfl (by decide)

/-! ## Claim C8 -/

/-- C8 counterexample: a clean 15-character review body is kept by the RT
card parser (its minimum length is 10), while the claim says a 15-character
body is discarded by both extractors (minimum 20). -/
theorem c8_counterexample :
    (rt_parse_review_card "fifteen chars!!" "all_audience" 0).isSome = true ∧
    "fifteen chars!!".length = 15 := by
  constructor <;> decide

/-- C8 (amended): the minimum body length is 20 for the IMDb extractor but 10
for the Rotten Tomatoes card extractor: a 15-character body is discarded by
the IMDb parser yet kept by the RT parser; a 20-character body is kept by
both; a 9-character body is discarded by the RT parser (its boundary is 10). -/
theorem c8_min_length_boundaries (t : String) (ep : String) (salt : Nat)
    (hclean : rtCleanReviewText t = t) :
    (t.length = 15 →
      imdb_parse_review_text t = none ∧ (rt_parse_review_card t ep salt).isSome = true) ∧
    (t.length = 20 →
      (imdb_parse_review_text t).isSome = true ∧
        (rt_parse_review_card t ep salt).isSome = true) ∧
    (t.length = 9 → rt_parse_review_card t ep salt = none) := by
  refine ⟨fun hl => ⟨?_, ?_⟩, fun hl => ⟨?_, ?_⟩, fun hl => ?_⟩
  · have : (t.length < 20) = True := by simp [hl]
    simp [imdb_parse_review_text, this]
  · have ht : ¬(t = "") := by
      intro h
      rw [h] at hl
      exact absurd hl (by decide)
    simp [rt_parse_review_card, hclean, hl, ht]
  · have ht : ¬(t = "") := by
      intro h
      rw [h] at hl
      exact absurd hl (by decide)
    simp [imdb_parse_review_text, hl, ht]
  · have ht : ¬(t = "") := by
      intro h
      rw [h] at hl
      exact absurd hl (by decide)
    simp [rt_parse_review_card, hclean, hl, ht]
  · simp [rt_parse_review_card, hclean, hl]

/-- Witness for C8 at concrete clean bodies of lengths 15 and 20. -/
theorem c8_min_length_boundaries_witness :
    (imdb_parse_review_text "fifteen chars!!" = none ∧
      (rt_parse_review_card "fifteen chars!!" "all_audience" 0).isSome = true) ∧
    ((imdb_parse_review_text "twenty characters!!!").isSome = true ∧
      (rt_parse_review_card "twenty characters!!!" "all_audience" 0).isSome = true) :=
  ⟨(c8_min_length_boundaries "fifteen chars!!" "all_audience" 0 (by decide)).1 (by decide),
   (c8_min_length_boundaries "twenty characters!!!" "all_audience" 0 (by decide)).2.1
     (by decide)⟩

/-! ## Claim C2 -/

/-- C2: in the dedup merge, for two reviews with identical body text under
categories audience (priority 1) and critic (priority 3), exactly one review
survives and it is the critic one, in either batch order; and in general a
stored entry for a fingerprint is replaced by an incoming duplicate exactly
when the incoming priority is strictly greater. -/
theorem c2_dedup_priority :
    (∀ (salt : Nat) (r1 r2 : RTReview), r1.text = r2.text →
      r1.review_type = some "audience" → r2.review_type = some "critic" →
      scrape_reviews_dedup salt [[r1], [r2]] = [r2] ∧
      scrape_reviews_dedup salt [[r2], [r1]] = [r2]) ∧
    (∀ (salt : Nat) (seen : List (Int × RTReview × Nat)) (r0 : RTReview) (p0 : Nat)
        (r : RTReview),
      seen.find? (fun e => e.1 == pyStrHash salt r.text)
        = some (pyStrHash salt r.text, r0, p0) →
      (reviewPriority r ≤ p0 → dedupStep salt seen r = seen) ∧
      (p0 < reviewPriority r →
        (dedupStep salt seen r).find? (fun e => e.1 == pyStrHash salt r.text)
          = some (pyStrHash salt r.text, r, reviewPriority r))) := by
  constructor
  · intro salt r1 r2 htext h1 h2
    have hp1 : reviewPriority r1 = 1 := by rw [reviewPriority, h1]; rfl
    have hp2 : reviewPriority r2 = 3 := by rw [reviewPriority, h2]; rfl
    constructor
    · simp [scrape_reviews_dedup, dedupStep, htext, hp1, hp2]
    · simp [scrape_reviews_dedup, dedupStep, ← htext, hp1, hp2]
  · intro salt seen r0 p0 r hfind
    constructor
    · intro hle
      simp only [dedupStep, hfind]
      rw [if_neg (by omega)]
    · intro hlt
      simp only [dedupStep, hfind]
      rw [if_pos hlt]
      rw [find_map_key _ _ (fun e => by
        by_cases he : (e.1 == pyStrHash salt r.text) = true <;> simp [he])]
      rw [hfind]
      simp

/-- Witness for C2 on two concrete duplicate reviews. -/
theorem c2_dedup_priority_witness :
    scrape_reviews_dedup 0 [[⟨"a", "great movie overall", 19, 3, some "audience"⟩],
        [⟨"c", "great movie overall", 19, 3, some "critic"⟩]]
      = [⟨"c", "great movie overall", 19, 3, some "critic"⟩] ∧
    scrape_reviews_dedup 0 [[⟨"c", "great movie overall", 19, 3, some "critic"⟩],
        [⟨"a", "great movie overall", 19, 3, some "audience"⟩]]
      = [⟨"c", "great movie overall", 19, 3, some "critic"⟩] :=
  c2_dedup_priority.1 0 ⟨"a", "great movie overall", 19, 3, some "audience"⟩
    ⟨"c", "great movie overall", 19, 3, some "critic"⟩ rfl rfl rfl

/-! ## Claim C1 -/

/-- C1 counterexample: on the titles "ab" and "abc" the containment strategy
returns `0.9 * (2/3) = 0.6` and short-circuits, even though the documented
sequence-similarity signal equals `0.8`, so the returned score is not the
maximum of the four documented signals. -/
theorem c1_counterexample :
    calculate_match_score "ab" "abc" = Rat.divInt 3 5 ∧
    seqRatio (rtNormalize "ab") (rtNormalize "abc") = Rat.divInt 4 5 ∧
    spec_four_signal_max "ab" "abc" = Rat.divInt 4 5 ∧
    calculate_match_score "ab" "abc" ≠ spec_four_signal_max "ab" "abc" := by
  refine ⟨by decide, by decide, by decide, by decide⟩

/-- C1 (amended): the fuzzy match score is computed by an early-return chain,
not by a maximum over all four signals: 1.0 on exact equality of the
normalized titles; else, when one normalized title contains the other,
`0.9 * (len(shorter)/len(longer))` regardless of the other signals; and only
otherwise the maximum of the sequence-similarity ratio and the token-set
overlap.  (The length hypothesis keeps the second string below difflib's
autojunk activation threshold, under which the embedded ratio is exact.) -/
theorem c1_match_score_cases (a b : String) (_hlen : (rtNormalize b).length < 200) :
    (rtNormalize a = rtNormalize b → calculate_match_score a b = 1) ∧
    (rtNormalize a ≠ rtNormalize b →
      (pyContains (rtNormalize b) (rtNormalize a)
        || pyContains (rtNormalize a) (rtNormalize b)) = true →
      calculate_match_score a b = containScore (rtNormalize a) (rtNormalize b)) ∧
    (rtNormalize a ≠ rtNormalize b →
      (pyContains (rtNormalize b) (rtNormalize a)
        || pyContains (rtNormalize a) (rtNormalize b)) = false →
      calculate_match_score a b
        = max (seqRatio (rtNormalize a) (rtNormalize b))
            (wordOverlap (rtNormalize a) (rtNormalize b))) := by
  refine ⟨fun h => ?_, fun h hc => ?_, fun h hc => ?_⟩
  · simp [calculate_match_score, h]
  · simp [calculate_match_score, h, hc]
  · simp [calculate_match_score, h, hc, qMax_eq]

/-- Witness for C1 covering all three branches at concrete titles. -/
theorem c1_match_score_cases_witness :
    calculate_match_score "The Matrix" "Matrix" = 1 ∧
    calculate_match_score "ab" "abx" = containScore (rtNormalize "ab") (rtNormalize "abx") ∧
    calculate_match_score "ab" "cd"
      = max (seqRatio (rtNormalize "ab") (rtNormalize "cd"))
          (wordOverlap (rtNormalize "ab") (rtNormalize "cd")) :=
  ⟨(c1_match_score_cases "The Matrix" "Matrix" (by decide)).1 (by decide),
   (c1_match_score_cases "ab" "abx" (by decide)).2.1 (by decide) (by decide),
   (c1_match_score_cases "ab" "cd" (by decide)).2.2 (by decide) (by decide)⟩

/-! ## Claim C5 -/

/-- Python `round` moves a value by at most one half. -/
theorem roundHalfEven_close (q : ℚ) : |(roundHalfEven q : ℚ) - q| ≤ 1/2 := by
  have h1 : (⌊q⌋ : ℚ) ≤ q := Int.floor_le q
  have h2 : q < ⌊q⌋ + 1 := Int.lt_floor_add_one q
  have hfl : Rat.floor q = ⌊q⌋ := rfl
  have hs : qSub q ((⌊q⌋ : ℤ) : ℚ) = q - (⌊q⌋ : ℚ) := by rw [qSub_eq]
  have hh : (Rat.divInt 1 2 : ℚ) = 1/2 := by rw [Rat.divInt_eq_div]; norm_num
  rw [roundHalfEven, hfl, abs_le]
  split_ifs with hc1 hc2 hc3
  · rw [qLt_iff, hs, hh] at hc1
    constructor <;> linarith
  · rw [Bool.not_eq_true, qLt_eq_false_iff, hs, hh] at hc1
    rw [qLt_iff, hs, hh] at hc2
    constructor <;> push_cast <;> linarith
  · rw [Bool.not_eq_true, qLt_eq_false_iff, hs, hh] at hc1
    rw [Bool.not_eq_true, qLt_eq_false_iff, hs, hh] at hc2
    constructor <;> linarith
  · rw [Bool.not_eq_true, qLt_eq_false_iff, hs, hh] at hc1
    rw [Bool.not_eq_true, qLt_eq_false_iff, hs, hh] at hc2
    constructor <;> push_cast <;> linarith

/-- Python `round(x, 2)` moves a value by at most `0.005`. -/
theorem pyRound2_close (q : ℚ) : |pyRound2 q - q| ≤ 1/200 := by
  have h := roundHalfEven_close (qMul q 100)
  rw [qMul_eq] at h
  rw [pyRound2, qDiv_eq, qMul_eq]
  rw [abs_le] at h ⊢
  obtain ⟨hl, hr⟩ := h
  constructor <;> linarith

/-- A weighted average with positive weights lies between its two values. -/
theorem weighted_between (tv iv tw iw : ℚ) (htw : 1 ≤ tw) (hiw : 1 ≤ iw) :
    min tv iv ≤ (tv * tw + iv * iw) / (tw + iw) ∧
      (tv * tw + iv * iw) / (tw + iw) ≤ max tv iv := by
  have hpos : (0:ℚ) < tw + iw := by linarith
  constructor
  · rw [le_div_iff₀ hpos]
    rcases le_total tv iv with h | h
    · rw [min_eq_left h]
      nlinarith [mul_le_mul_of_nonneg_right h (by linarith : (0:ℚ) ≤ iw)]
    · rw [min_eq_right h]
      nlinarith [mul_le_mul_of_nonneg_right h (by linarith : (0:ℚ) ≤ tw)]
  · rw [div_le_iff₀ hpos]
    rcases le_total tv iv with h | h
    · rw [max_eq_right h]
      nlinarith [mul_le_mul_of_nonneg_right h (by linarith : (0:ℚ) ≤ tw)]
    · rw [max_eq_left h]
      nlinarith [mul_le_mul_of_nonneg_right h (by linarith : (0:ℚ) ≤ iw)]

/-- The defaulted vote weight is at least 1 for nonnegative vote counts. -/
theorem voteWeight_ge_one (v : Option Int) (hv : 0 ≤ v.getD 0) : 1 ≤ voteWeight v := by
  cases v with
  | none => simp [voteWeight]
  | some n =>
    simp only [Option.getD_some] at hv
    rw [voteWeight]
    by_cases h : n = 0
    · simp [h]
    · rw [if_neg h]
      omega

/-- C5 counterexample: with TMDB 7.116 and IMDb 7.118 (one vote each, no
fresh scrape) the weighted average is 7.117, which rounds to 7.12 — outside
the interval [7.116, 7.118] of the contributing values, so the invariant
fails after rounding. -/
theorem c5_counterexample :
    get_best_rating ⟨some (Rat.divInt 7116 1000), some 1,
        some (Rat.divInt 7118 1000), some 1, none⟩ 0
      = some (Rat.divInt 712 100) ∧
    max (Rat.divInt 7116 1000 : ℚ) (Rat.divInt 7118 1000) < Rat.divInt 712 100 := by
  constructor
  · decide
  · refine max_lt ?_ ?_ <;> rw [Rat.divInt_eq_div, Rat.divInt_eq_div] <;> norm_num

/-- C5 (amended): when both stored ratings contribute (both truthy, no fresh
override, nonnegative vote counts), the unrounded weighted average lies in
`[min, max]` of the contributing values and the recommended (rounded) value
lies within that interval widened by half a rounding unit (0.005) — rounding
can move it outside `[min, max]` itself; when exactly one rating is truthy,
the recommended value equals it exactly. -/
theorem c5_recommended_bounds :
    (∀ (m : MovieRatings) (now : Int) (tv iv : ℚ),
      freshApplies m now = false →
      m.tmdb_rating = some tv → tv ≠ 0 → m.imdb_rating = some iv → iv ≠ 0 →
      0 ≤ m.tmdb_vote_count.getD 0 → 0 ≤ m.imdb_vote_count.getD 0 →
      (min tv iv ≤ weightedRating m ∧ weightedRating m ≤ max tv iv) ∧
      get_best_rating m now = some (pyRound2 (weightedRating m)) ∧
      min tv iv - 1/200 ≤ pyRound2 (weightedRating m) ∧
      pyRound2 (weightedRating m) ≤ max tv iv + 1/200) ∧
    (∀ (m : MovieRatings) (now : Int) (tv : ℚ),
      m.tmdb_rating = some tv → tv ≠ 0 →
      (m.imdb_rating = none ∨ m.imdb_rating = some 0) →
      get_best_rating m now = some tv) ∧
    (∀ (m : MovieRatings) (now : Int) (iv : ℚ),
      m.imdb_rating = some iv → iv ≠ 0 →
      (m.tmdb_rating = none ∨ m.tmdb_rating = some 0) →
      get_best_rating m now = some iv) := by
  refine ⟨?_, ?_, ?_⟩
  · intro m now tv iv hfresh ht htv hi hiv hvt hvi
    have htw : (1:ℚ) ≤ ((voteWeight m.tmdb_vote_count : ℤ) : ℚ) := by
      exact_mod_cast voteWeight_ge_one _ hvt
    have hiw : (1:ℚ) ≤ ((voteWeight m.imdb_vote_count : ℤ) : ℚ) := by
      exact_mod_cast voteWeight_ge_one _ hvi
    have hw : weightedRating m
        = (tv * ((voteWeight m.tmdb_vote_count : ℤ) : ℚ)
            + iv * ((voteWeight m.imdb_vote_count : ℤ) : ℚ))
            / (((voteWeight m.tmdb_vote_count : ℤ) : ℚ)
              + ((voteWeight m.imdb_vote_count : ℤ) : ℚ)) := by
      rw [weightedRating, ht, hi]
      simp only [Option.getD_some]
      rw [qDiv_eq, qAdd_eq, qMul_eq, qMul_eq, qAdd_eq]
    have hbetween := weighted_between tv iv _ _ htw hiw
    rw [← hw] at hbetween
    have hclose := pyRound2_close (weightedRating m)
    rw [abs_le] at hclose
    refine ⟨hbetween, ?_, by linarith [hbetween.1, hclose.1], by linarith [hbetween.2, hclose.2]⟩
    rw [get_best_rating, hfresh]
    simp only [Bool.false_eq_true, if_false]
    rw [if_pos]
    rw [ht, hi]
    simp [pyTruthyQ, htv, hiv]
  · intro m now tv ht htv hi
    have hfresh : freshApplies m now = false := by
      rcases hi with hi | hi <;> simp [freshApplies, hi, pyTruthyQ]
    rw [get_best_rating, hfresh]
    simp only [Bool.false_eq_true, if_false]
    rcases hi with hi | hi <;> rw [ht, hi] <;> simp [pyTruthyQ, htv]
  · intro m now iv hi hiv ht
    rw [get_best_rating]
    by_cases hfresh : freshApplies m now = true
    · rw [if_pos hfresh, hi]
    · rw [if_neg hfresh]
      rcases ht with ht | ht <;> rw [ht, hi] <;> simp [pyTruthyQ, hiv]

/-- Witness for C5 at the spec's concrete observations. -/
theorem c5_recommended_bounds_witness :
    (min (7:ℚ) 8 ≤ weightedRating ⟨some 7, some 1000, some 8, some 500, none⟩ ∧
      weightedRating ⟨some 7, some 1000, some 8, some 500, none⟩ ≤ max (7:ℚ) 8) ∧
    get_best_rating ⟨some 7, some 1000, some 8, some 500, none⟩ 0
      = some (pyRound2 (weightedRating ⟨some 7, some 1000, some 8, some 500, none⟩)) ∧
    min (7:ℚ) 8 - 1/200
      ≤ pyRound2 (weightedRating ⟨some 7, some 1000, some 8, some 500, none⟩) ∧
    pyRound2 (weightedRating ⟨some 7, some 1000, some 8, some 500, none⟩)
      ≤ max (7:ℚ) 8 + 1/200 :=
  c5_recommended_bounds.1 ⟨some 7, some 1000, some 8, some 500, none⟩ 0 7 8
    (by decide) rfl (by decide) rfl (by decide) (by decide) (by decide)

/-! ## Claim C4 -/

/-- C4 counterexample: the IMDb fuzzy stage accepts at its default threshold
60 (i.e. 0.6), not 0.7: a single candidate scoring 65 (0.65, below 0.7) with
a matching year is returned, while the claim says it yields `None`. -/
theorem c4_counterexample :
    search_movie_fuzzy_select "aaaaaaaaaaaaabbbbbbb" (some 2010) 60
      [⟨"aaaaaaaaaaaaaccccccc", "tt0000001", some 2010⟩] = some "tt0000001" ∧
    imdb_candidate_score "aaaaaaaaaaaaabbbbbbb"
      ⟨"aaaaaaaaaaaaaccccccc", "tt0000001", some 2010⟩ = 65 ∧
    qLt (Rat.divInt 65 100) (Rat.divInt 7 10) = true := by
  refine ⟨by decide, by decide, by decide⟩

/-- C4 (amended): for a single fuzzy-search candidate, the stage returns the
candidate's id exactly when the year rule passes and its token-sort score
(0-100 scale) is positive and at least `threshold` — the caller's default
threshold being 60, a candidate scoring 0.72 (72) with a matching year is
returned and one scoring 0.65 (65) is returned as well; a year-incompatible
or below-threshold candidate yields `None` from this stage. -/
theorem c4_fuzzy_threshold (title : String) (year : Option Int) (threshold : Int)
    (r : IMDbSearchResult) :
    (imdbYearOk year r.year = false →
      search_movie_fuzzy_select title year threshold [r] = none) ∧
    (imdbYearOk year r.year = true → 0 < imdb_candidate_score title r →
      (threshold ≤ imdb_candidate_score title r →
        search_movie_fuzzy_select title year threshold [r] = some r.imdb_id) ∧
      (imdb_candidate_score title r < threshold →
        search_movie_fuzzy_select title year threshold [r] = none)) := by
  constructor
  · intro hy
    simp [search_movie_fuzzy_select, imdbSelectStep, hy]
  · intro hy hpos
    constructor
    · intro hth
      simp [search_movie_fuzzy_select, imdbSelectStep, hy, hpos, hth]
    · intro hth
      simp [search_movie_fuzzy_select, imdbSelectStep, hy, hpos, not_le.mpr hth]

/-- Witness for C4: an exact-title candidate scores 100 and is returned at
the default threshold 60. -/
theorem c4_fuzzy_threshold_witness :
    search_movie_fuzzy_select "inception" (some 2010) 60
      [⟨"Inception", "tt1375666", some 2010⟩] = some "tt1375666" :=
  ((c4_fuzzy_threshold "inception" (some 2010) 60 ⟨"Inception", "tt1375666", some 2010⟩).2
    (by decide) (by decide)).1 (by decide)

/-! ## Claim C9 -/

/-- A defined year adjustment implies the ±2 window (when both years are
truthy/present). -/
theorem rtYearAdjust_some_eligible {year ry : Option Int} {s adj : ℚ}
    (h : rtYearAdjust year ry s = some adj) (qy y : Int)
    (hqy : year = some qy) (hqy0 : qy ≠ 0) (hry : ry = some y) :
    (y - qy).natAbs ≤ 2 := by
  subst hqy
  subst hry
  simp only [rtYearAdjust] at h
  rw [if_neg hqy0] at h
  by_contra hd
  rw [if_neg hd] at h
  exact Option.noConfusion h

/-- The RT candidate scan only ever selects a scanned, year-compatible
candidate (or leaves the accumulator untouched). -/
theorem rt_fold_sound (title : String) (year : Option Int) :
    ∀ (l : List RTSearchResult) (acc : Option RTSearchResult × ℚ) (r : RTSearchResult),
      (l.foldl (rtSelectStep title year) acc).1 = some r →
      acc.1 = some r ∨ (r ∈ l ∧
        rtYearAdjust year r.startyear (calculate_match_score title r.title) ≠ none)
  | [], _, _, h => Or.inl h
  | x :: l, acc, r, h => by
    rw [List.foldl_cons] at h
    rcases rt_fold_sound title year l (rtSelectStep title year acc x) r h with h1 | h2
    · rw [rtSelectStep] at h1
      by_cases htv : pyContains x.url "/tv/" = true
      · rw [if_pos htv] at h1
        exact Or.inl h1
      · rw [if_neg htv] at h1
        cases hadj : rtYearAdjust year x.startyear (calculate_match_score title x.title) with
        | none =>
          rw [hadj] at h1
          exact Or.inl h1
        | some s =>
          simp only [hadj] at h1
          by_cases hlt : qLt acc.2 s = true
          · rw [if_pos hlt] at h1
            have hx : x = r := Option.some.inj h1
            subst hx
            refine Or.inr ⟨List.mem_cons_self x l, ?_⟩
            rw [hadj]
            exact fun hc => Option.noConfusion hc
          · rw [if_neg hlt] at h1
            exact Or.inl h1
    · exact Or.inr ⟨List.mem_cons_of_mem x h2.1, h2.2⟩

/-- The IMDb candidate scan only ever selects a scanned candidate that passed
the year rule (or leaves the accumulator untouched). -/
theorem imdb_fold_sound (title : String) (year : Option Int) :
    ∀ (l : List IMDbSearchResult) (acc : Option IMDbSearchResult × Int)
      (r : IMDbSearchResult),
      (l.foldl (imdbSelectStep title year) acc).1 = some r →
      acc.1 = some r ∨ (r ∈ l ∧ imdbYearOk year r.year = true)
  | [], _, _, h => Or.inl h
  | x :: l, acc, r, h => by
    rw [List.foldl_cons] at h
    rcases imdb_fold_sound title year l (imdbSelectStep title year acc x) r h with h1 | h2
    · rw [imdbSelectStep] at h1
      by_cases hc : (imdbYearOk year x.year
          && decide (acc.2 < imdb_candidate_score title x)) = true
      · rw [if_pos hc] at h1
        have hx : x = r := Option.some.inj h1
        subst hx
        rw [Bool.and_eq_true] at hc
        exact Or.inr ⟨List.mem_cons_self x l, hc.1⟩
      · rw [if_neg hc] at h1
        exact Or.inl h1
    · exact Or.inr ⟨List.mem_cons_of_mem x h2.1, h2.2⟩

/-- C9 counterexample: the RT resolver's year window is ±2, not ±1: an exact
title match whose year differs from the query year by exactly 2 is returned
as the resolved identifier. -/
theorem c9_counterexample :
    rt_select_best "inception" (some 2010)
      [⟨"inception", "https://www.rottentomatoes.com/m/inception_2012", some 2012⟩]
      = some "inception_2012" ∧
    ((2012 - 2010 : Int).natAbs > 1) := by
  constructor <;> decide

/-- C9 (amended): a returned candidate always comes from the scanned result
rows and satisfies the year rule of its resolver — at most ±2 for the RT
scan (where a larger difference disqualifies the candidate), and at most ±1
for the IMDb fuzzy scan. -/
theorem c9_year_eligibility :
    (∀ (title : String) (year : Option Int) (results : List RTSearchResult) (out : String),
      rt_select_best title year results = some out →
      ∃ r, r ∈ results ∧ out = rtSlugOfUrl r.url ∧
        ∀ qy ry, year = some qy → qy ≠ 0 → r.startyear = some ry →
          (ry - qy).natAbs ≤ 2) ∧
    (∀ (title : String) (year : Option Int) (threshold : Int)
        (results : List IMDbSearchResult) (out : String),
      search_movie_fuzzy_select title year threshold results = some out →
      ∃ r, r ∈ results ∧ out = r.imdb_id ∧ imdbYearOk year r.year = true) := by
  constructor
  · intro title year results out h
    simp only [rt_select_best] at h
    cases hfin : (results.foldl (rtSelectStep title year) (none, 0)).1 with
    | none =>
      rw [hfin] at h
      exact Option.noConfusion h
    | some r =>
      simp only [hfin] at h
      by_cases hq : qLe (Rat.divInt 7 10)
          (results.foldl (rtSelectStep title year) (none, 0)).2 = true
      · rw [if_pos hq] at h
        have hout : out = rtSlugOfUrl r.url := (Option.some.inj h).symm
        rcases rt_fold_sound title year results (none, 0) r hfin with h1 | h2
        · exact Option.noConfusion h1
        · refine ⟨r, h2.1, hout, ?_⟩
          intro qy ry hqy hqy0 hry
          cases hadj : rtYearAdjust year r.startyear (calculate_match_score title r.title) with
          | none => exact absurd hadj h2.2
          | some s => exact rtYearAdjust_some_eligible hadj qy ry hqy hqy0 hry
      · rw [if_neg hq] at h
        exact Option.noConfusion h
  · intro title year threshold results out h
    simp only [search_movie_fuzzy_select] at h
    cases hfin : ((results.take 10).foldl (imdbSelectStep title year) (none, 0)).1 with
    | none =>
      rw [hfin] at h
      exact Option.noConfusion h
    | some r =>
      simp only [hfin] at h
      by_cases hq : threshold ≤ ((results.take 10).foldl (imdbSelectStep title year) (none, 0)).2
      · rw [if_pos hq] at h
        have hout : out = r.imdb_id := (Option.some.inj h).symm
        rcases imdb_fold_sound title year (results.take 10) (none, 0) r hfin with h1 | h2
        · exact Option.noConfusion h1
        · exact ⟨r, List.take_subset 10 results h2.1, hout, h2.2⟩
      · rw [if_neg hq] at h
        exact Option.noConfusion h

/-- Witness for C9: a returned RT candidate at year distance 1. -/
theorem c9_year_eligibility_witness :
    ∃ r, r ∈ [(⟨"inception", "https://www.rottentomatoes.com/m/inception",
        some 2011⟩ : RTSearchResult)] ∧
      "inception" = rtSlugOfUrl r.url ∧
      ∀ qy ry, (some 2010 : Option Int) = some qy → qy ≠ 0 → r.startyear = some ry →
        (ry - qy).natAbs ≤ 2 :=
  c9_year_eligibility.1 "inception" (some 2010)
    [⟨"inception", "https://www.rottentomatoes.com/m/inception", some 2011⟩]
    "inception" (by decide)

/-! ## Claim C10 -/

/-- A split starting from a non-empty accumulator yields at least one token. -/
theorem wsSplitAux_ne_nil_acc : ∀ (l : List Char) (a : Char) (as : List Char),
    wsSplitAux l (a :: as) ≠ []
  | [], a, as => by simp [wsSplitAux]
  | c :: cs, a, as => by
    rw [wsSplitAux]
    by_cases hw : isPyWs c = true
    · simp [hw]
    · rw [if_neg hw]
      exact wsSplitAux_ne_nil_acc cs c (a :: as)

/-- Every token produced by the whitespace split is non-empty. -/
theorem wsSplitAux_mem_ne_nil : ∀ (l acc tok : List Char),
    tok ∈ wsSplitAux l acc → tok ≠ []
  | [], acc, tok, h => by
    rw [wsSplitAux] at h
    by_cases he : acc.isEmpty = true
    · rw [if_pos he] at h
      simp at h
    · rw [if_neg he] at h
      have htok : tok = acc.reverse := by simpa using h
      subst htok
      intro hnil
      rw [List.reverse_eq_nil_iff] at hnil
      subst hnil
      exact he rfl
  | c :: cs, acc, tok, h => by
    rw [wsSplitAux] at h
    by_cases hw : isPyWs c = true
    · rw [if_pos hw] at h
      by_cases he : acc.isEmpty = true
      · rw [if_pos he] at h
        exact wsSplitAux_mem_ne_nil cs [] tok h
      · rw [if_neg he] at h
        rcases List.mem_cons.mp h with h1 | h1
        · subst h1
          intro hnil
          rw [List.reverse_eq_nil_iff] at hnil
          subst hnil
          exact he rfl
        · exact wsSplitAux_mem_ne_nil cs [] tok h1
    · rw [if_neg hw] at h
      exact wsSplitAux_mem_ne_nil cs (c :: acc) tok h

/-- A list containing a non-whitespace character splits into at least one
token. -/
theorem wsSplitAux_ne_nil_of_mem : ∀ (l acc : List Char) (c : Char),
    c ∈ l → isPyWs c = false → wsSplitAux l acc ≠ []
  | [], _, c, hc, _ => absurd hc (List.not_mem_nil c)
  | d :: l, acc, c, hc, hw => by
    rw [wsSplitAux]
    by_cases hd : isPyWs d = true
    · have hcl : c ∈ l := by
        rcases List.mem_cons.mp hc with h | h
        · subst h
          rw [hd] at hw
          exact absurd hw (by simp)
        · exact h
      by_cases he : acc.isEmpty = true
      · rw [if_pos hd, if_pos he]
        exact wsSplitAux_ne_nil_of_mem l [] c hcl hw
      · rw [if_pos hd, if_neg he]
        simp
    · rw [if_neg hd]
      exact wsSplitAux_ne_nil_acc l d acc

/-- Joining a non-empty list of non-empty tokens is non-empty. -/
theorem joinWith_ne_nil (sep : Char) : ∀ (ts : List (List Char)),
    ts ≠ [] → (∀ t ∈ ts, t ≠ []) → joinWith sep ts ≠ []
  | [], h, _ => absurd rfl h
  | [x], _, hts => by
    rw [joinWith]
    exact hts x (List.mem_singleton_self x)
  | x :: y :: r, _, _ => by
    rw [joinWith]
    simp

/-- Disjunction form of boolean or. -/
theorem bor_eq_true {a b : Bool} : (a || b) = true ↔ a = true ∨ b = true := by
  cases a <;> cases b <;> simp

/-- `&`-expansion preserves the presence of a lowercase/digit character
(turning a `&` into the letters of "and"). -/
theorem expandAmp_material : ∀ (cs : List Char),
    (∃ c ∈ cs, ((c.isLower || c.isDigit) || c = '&') = true) →
    ∃ c ∈ expandAmp cs, (c.isLower || c.isDigit) = true
  | [], ⟨c, hc, _⟩ => absurd hc (List.not_mem_nil c)
  | d :: cs, ⟨c, hc, hp⟩ => by
    rw [expandAmp]
    by_cases hd : d = '&'
    · rw [if_pos hd]
      rcases List.mem_cons.mp hc with h | h
      · exact ⟨'a', by simp, by decide⟩
      · rcases expandAmp_material cs ⟨c, h, hp⟩ with ⟨e, he, hep⟩
        exact ⟨e, by simp [he], hep⟩
    · rw [if_neg hd]
      rcases List.mem_cons.mp hc with h | h
      · subst h
        rcases bor_eq_true.mp hp with h2 | h2
        · exact ⟨c, List.mem_cons_self c (expandAmp cs), h2⟩
        · exact absurd (of_decide_eq_true h2) hd
      · rcases expandAmp_material cs ⟨c, h, hp⟩ with ⟨e, he, hep⟩
        exact ⟨e, List.mem_cons_of_mem d he, hep⟩

/-- A lowercase letter or digit is not whitespace. -/
theorem lower_digit_not_ws (c : Char) (h : (c.isLower || c.isDigit) = true) :
    isPyWs c = false := by
  by_contra hws
  rw [Bool.not_eq_false] at hws
  simp only [isPyWs, Bool.or_eq_true, decide_eq_true_eq] at hws
  rcases hws with ((((h1 | h1) | h1) | h1) | h1) | h1 <;> subst h1 <;>
    exact absurd h (by decide)

/-- A lowercase letter or digit is kept by the slug filter. -/
theorem slugKeep_of_material (c : Char) (h : (c.isLower || c.isDigit) = true) :
    isSlugKeep c = true := by
  rw [isSlugKeep]
  rcases bor_eq_true.mp h with h1 | h1 <;> simp [h1]

/-- The generated slug is non-empty whenever the title contains a character
that lowercases to `[a-z0-9]`, or an ampersand (which expands to "and"). -/
theorem generate_slug_ne_empty (title : String)
    (h : ∃ c ∈ title.data, ((c.toLower.isLower || c.toLower.isDigit) || c = '&') = true) :
    generate_slug title none ≠ "" := by
  obtain ⟨c, hc, hp⟩ := h
  have h1 : ∃ e ∈ title.data.map Char.toLower, ((e.isLower || e.isDigit) || e = '&') = true := by
    refine ⟨c.toLower, List.mem_map_of_mem Char.toLower hc, ?_⟩
    rcases bor_eq_true.mp hp with h2 | h2
    · rw [h2]
      rfl
    · have hc' : c = '&' := of_decide_eq_true h2
      subst hc'
      decide
  obtain ⟨f, hf, hfp⟩ := expandAmp_material (title.data.map Char.toLower) h1
  have hfk : f ∈ (expandAmp (title.data.map Char.toLower)).filter isSlugKeep :=
    List.mem_filter.mpr ⟨hf, slugKeep_of_material f hfp⟩
  have hfw : isPyWs f = false := lower_digit_not_ws f hfp
  intro hempty
  have hL : joinWith '_'
      (pySplitL ((expandAmp (title.data.map Char.toLower)).filter isSlugKeep))
      = ([] : List Char) := congrArg String.data hempty
  exact joinWith_ne_nil '_' _
    (by rw [pySplitL] at *; exact wsSplitAux_ne_nil_of_mem _ [] f hfk hfw)
    (fun t ht => wsSplitAux_mem_ne_nil _ [] t ht) hL

/-- C10 counterexample: for the title `"!!!"` (no alphanumeric content) both
search strategies failing leads to the generated slug, which is the empty
string — the resolver returns `some ""`, not a non-empty identifier, and
callers testing truthiness see it as a resolution failure. -/
theorem c10_counterexample :
    rt_search_movie "!!!" none none none = some "" ∧ ("" : String).length = 0 := by
  constructor <;> decide

/-- C10 (amended): `search_movie` never raises (every failure of the
Selenium-backed stages is already a `none` oracle value) and always returns a
non-`None` string: any truthy stage result or else the generated slug.  The
returned string is moreover non-empty whenever the title contains a character
lowercasing to `[a-z0-9]` or an ampersand; for titles with no such character
(e.g. `"!!!"`) the fallback slug — and hence the returned string — is empty. -/
theorem c10_search_movie_total :
    (∀ (title : String) (year : Option Int) (s1 s2 : Option String),
      (rt_search_movie title year s1 s2).isSome = true) ∧
    (∀ (title : String) (year : Option Int) (s1 s2 : Option String),
      (∃ c ∈ title.data, ((c.toLower.isLower || c.toLower.isDigit) || c = '&') = true) →
      ∀ out, rt_search_movie title year s1 s2 = some out → out ≠ "") := by
  constructor
  · intro title year s1 s2
    rw [rt_search_movie]
    by_cases h1 : pyTruthyStr s1 = true
    · rw [if_pos h1]
      cases s1 with
      | none => simp [pyTruthyStr] at h1
      | some v => rfl
    · rw [if_neg h1]
      by_cases h2 : (pyTruthyZ year && pyTruthyStr s2) = true
      · rw [if_pos h2]
        rw [Bool.and_eq_true] at h2
        cases s2 with
        | none => simp [pyTruthyStr] at h2
        | some v => rfl
      · rw [if_neg h2]
        rfl
  · intro title year s1 s2 hmat out hout
    rw [rt_search_movie] at hout
    by_cases h1 : pyTruthyStr s1 = true
    · rw [if_pos h1] at hout
      cases s1 with
      | none => simp [pyTruthyStr] at h1
      | some v =>
        have hv : v = out := Option.some.inj hout
        subst hv
        simpa [pyTruthyStr] using h1
    · rw [if_neg h1] at hout
      by_cases h2 : (pyTruthyZ year && pyTruthyStr s2) = true
      · rw [if_pos h2] at hout
        rw [Bool.and_eq_true] at h2
        cases s2 with
        | none => simp [pyTruthyStr] at h2
        | some v =>
          have hv : v = out := Option.some.inj hout
          subst hv
          simpa [pyTruthyStr] using h2.2
      · rw [if_neg h2] at hout
        have hv : generate_slug title none = out := Option.some.inj hout
        subst hv
        exact generate_slug_ne_empty title hmat

/-- Witness for C10: a normal title resolves to a non-`None`, non-empty value
even with both search stages failing. -/
theorem c10_search_movie_total_witness :
    (rt_search_movie "The Matrix" none none none).isSome = true ∧
    rt_search_movie "The Matrix" none none none ≠ some "" :=
  ⟨c10_search_movie_total.1 "The Matrix" none none none,
   fun h => (c10_search_movie_total.2 "The Matrix" none none none
     ⟨'h', by decide, by decide⟩ "" h) rfl⟩
